import Mathlib

/-!
Shallow embedding of the service-worker virtual image-gallery API
(`sw.js` of davay42/sw-gallery) and proofs about its routing layer,
handlers and pure helpers.

Modelling conventions:
- JavaScript strings are Lean `String`s (all inputs of interest are ASCII,
  so `slice`/`substring` by code units coincide with `String.drop` by chars).
- A `Blob` carries its byte content and declared media type; its `size` is
  the byte length, as for a browser Blob.
- The IndexedDB object store (keyPath `filename`) is a list of `StoredItem`s
  with unique filenames; `put` replaces any record with the same key,
  `delete` removes it, `get` looks it up.
- Asynchronous handlers become pure functions threading the store state
  explicitly; `Date.now()` and `Math.random()` results are passed in as the
  `now` and `random` parameters.
- A JavaScript exception that escapes `handleRequest` uncaught is an
  `Except.error` carrying the error message; code lines that evaluate the
  undefined identifiers `path` / `API_BASE` raise a ReferenceError, which we
  embed as the corresponding thrown or caught error value, exactly where the
  source raises it.
-/

/-- JSON values, for the JSON bodies the handlers synthesize via
`JSON.stringify`. Numbers in these bodies are byte sizes and timestamps,
hence naturals. -/
inductive Json where
  | str : String → Json
  | num : Nat → Json
  | bool : Bool → Json
  | arr : List Json → Json
  | obj : List (String × Json) → Json

/-- A browser Blob: byte content plus declared media type.  -/
structure Blob where
  data : List Nat
  type : String
deriving DecidableEq

/-- Blob.size is the byte length of the content, as in the Blob API. -/
def Blob.size (b : Blob) : Nat := b.data.length

/-- One persisted record of the object store, as constructed by `storeImage`. -/
structure StoredItem where
  filename : String
  blob : Blob
  timestamp : Nat
  size : Nat
  type : String
deriving DecidableEq

/-- Body of a synthesized Response: a JSON document, plain text, or a raw blob. -/
inductive Body where
  | json : Json → Body
  | text : String → Body
  | blob : Blob → Body

/-- A synthesized HTTP-shaped response: status, headers, body. -/
structure Response where
  status : Nat
  headers : List (String × String)
  body : Body

/-- A File value from multipart form data: a name plus blob content
(`file.size` and `file.type` come from the blob). -/
structure JsFile where
  name : String
  blob : Blob
deriving DecidableEq

/-- One entry of `formData.getAll('images')`: either a File instance or a
non-File form value (a string). -/
inductive FormEntry where
  | file : JsFile → FormEntry
  | other : String → FormEntry
deriving DecidableEq

/-- The in-scope part of a URL, as the fetch listener decomposes it. -/
structure UrlParts where
  origin : String
  pathname : String
deriving DecidableEq

/-- The registered service-worker scope (`self.registration.scope`):
origin plus path portion, the mount point of the virtual API. -/
structure Scope where
  origin : String
  pathname : String
deriving DecidableEq

/-- An intercepted request as the fetch listener sees it. -/
structure RequestInfo where
  method : String
  url : UrlParts
deriving DecidableEq

/- ----------------------------------------------------------------
Database operations (the IndexedDB adapter functions of sw.js).
---------------------------------------------------------------- -/

/-- store.get(filename): find the record with the given key. -/
def getImage (db : List StoredItem) (filename : String) : Option StoredItem :=
  db.find? (fun x => x.filename == filename)

/-- store.getAll(): every record. -/
def getAllImages (db : List StoredItem) : List StoredItem := db

/-- store.put(imageData) with keyPath `filename`: full replace of any record
with the same key, insert otherwise. -/
def putItem (db : List StoredItem) (it : StoredItem) : List StoredItem :=
  db.filter (fun x => !(x.filename == it.filename)) ++ [it]

/-- store.delete(filename): remove the record with the given key, if present. -/
def deleteImage (db : List StoredItem) (filename : String) : List StoredItem :=
  db.filter (fun x => !(x.filename == filename))

/-- storeImage(db, filename, blob): builds the record
`{filename, blob, timestamp: Date.now(), size: blob.size,
type: blob.type || 'image/jpeg'}` and puts it. -/
def storeImage (db : List StoredItem) (filename : String) (blob : Blob)
    (now : Nat) : List StoredItem :=
  let imageData : StoredItem :=
    { filename := filename
      blob := blob
      timestamp := now
      size := blob.size
      type := if blob.type = "" then "image/jpeg" else blob.type }
  putItem db imageData

/- ----------------------------------------------------------------
Models of the JS string builtins the code uses, written as structural
recursion over character lists (the inputs of interest are ASCII, where
JS code-unit indexing and Lean character indexing agree).
---------------------------------------------------------------- -/

/-- List prefix test, for the startsWith model. -/
def listIsPref : List Char → List Char → Bool
  | [], _ => true
  | _ :: _, [] => false
  | a :: as, b :: bs => a == b && listIsPref as bs

/-- Model of JS `s.startsWith(pre)`. -/
def strStartsWith (s pre : String) : Bool :=
  listIsPref pre.toList s.toList

/-- Model of JS `s.slice(n)` / `s.substring(n)` for `0 ≤ n`. -/
def jsSlice (s : String) (n : Nat) : String :=
  String.mk (s.toList.drop n)

/-- Model of JS `s.split(sep)` for a single-character separator, on
character lists: `"".split(sep)` is `[""]`, and separators at the ends
produce empty fields, as in JS. -/
def splitChars (sep : Char) : List Char → List (List Char)
  | [] => [[]]
  | c :: cs =>
    if c == sep then [] :: splitChars sep cs
    else
      match splitChars sep cs with
      | [] => [[c]]
      | h :: t => (c :: h) :: t

/-- Model of JS `s.split(sep)` on strings. -/
def jsSplit (s : String) (sep : Char) : List String :=
  (splitChars sep s.toList).map String.mk

/-- Model of JS `s.toLowerCase()` (ASCII range; the file extensions at stake
are ASCII). -/
def jsToLower (s : String) : String :=
  String.mk (s.toList.map Char.toLower)

/- ----------------------------------------------------------------
Pure helpers: filename generation, URL parsing, content types.
---------------------------------------------------------------- -/

/-- The JS regex replace `originalName.replace(/\.[^/.]+$/, "")`: strip a
final dot followed by one or more characters none of which is a slash or a
dot; if the regex does not match, the name is unchanged. -/
def stripLastExtension (originalName : String) : String :=
  let r := originalName.toList.reverse
  let seg := r.takeWhile (fun c => c ≠ '.' ∧ c ≠ '/')
  match r.drop seg.length with
  | '.' :: rest => if seg.isEmpty then originalName else String.mk rest.reverse
  | _ => originalName

/-- generateUniqueFilename(originalName), with `Date.now()` and the
`Math.random().toString(36).substring(2, 8)` result passed in:
`ext = originalName.split('.').pop()`,
`nameWithoutExt = originalName.replace(/\.[^/.]+$/, "")`, and the result is
the template literal `timestamp-random-nameWithoutExt.ext`. -/
def generateUniqueFilename (timestamp : Nat) (random : String)
    (originalName : String) : String :=
  let ext := (jsSplit originalName '.').getLastD ""
  let nameWithoutExt := stripLastExtension originalName
  toString timestamp ++ "-" ++ random ++ "-" ++ nameWithoutExt ++ "." ++ ext

/-- Characters after the first `://` of a URL, if any. -/
def afterSchemeSep : List Char → Option (List Char)
  | ':' :: '/' :: '/' :: rest => some rest
  | _ :: rest => afterSchemeSep rest
  | [] => none

/-- Modelled JS builtin: `new URL(url).pathname`, simplified to the cases the
code exercises: a URL with a `scheme://` part parses, its pathname being the
slash-initiated part after the authority (or "/" when none); anything without
`://` fails to parse (the constructor throws). -/
def parseUrlPathname (url : String) : Option String :=
  match afterSchemeSep url.toList with
  | none => none
  | some afterScheme =>
    match afterScheme.dropWhile (fun c => !(c == '/')) with
    | [] => some "/"
    | pathChars => some (String.mk pathChars)

/-- extractFilenameFromUrl(url): last `/`-segment of the parsed pathname,
`null` (here `none`) when URL parsing throws. -/
def extractFilenameFromUrl (url : String) : Option String :=
  match parseUrlPathname url with
  | some pathname => some ((jsSplit pathname '/').getLastD "")
  | none => none

/-- The `types` lookup object of getContentType, as an association list. -/
def typesTable : List (String × String) :=
  [("jpg", "image/jpeg"), ("jpeg", "image/jpeg"), ("png", "image/png"),
   ("gif", "image/gif"), ("webp", "image/webp"), ("svg", "image/svg+xml"),
   ("bmp", "image/bmp"), ("avif", "image/avif"), ("tiff", "image/tiff")]

/-- getContentType(filename):
`ext = filename.toLowerCase().split('.').pop()`, then `types[ext] || 'image/jpeg'`. -/
def getContentType (filename : String) : String :=
  let ext := (jsSplit (jsToLower filename) '.').getLastD ""
  (typesTable.lookup ext).getD "image/jpeg"

/-- The lower-cased extension of a filename, the quantity getContentType is a
function of (written from the spec's phrase "lower-cased file extension"). -/
def lowerExt (filename : String) : String :=
  (jsSplit (jsToLower filename) '.').getLastD ""

/-- Hexadecimal digit test for the decodeURIComponent model. -/
def isHexDig (c : Char) : Bool :=
  (('0' ≤ c ∧ c ≤ '9') ∨ ('a' ≤ c ∧ c ≤ 'f') ∨ ('A' ≤ c ∧ c ≤ 'F') : Prop)

/-- Value of a hexadecimal digit. -/
def hexDigVal (c : Char) : Nat :=
  if '0' ≤ c ∧ c ≤ '9' then c.toNat - '0'.toNat
  else if 'a' ≤ c ∧ c ≤ 'f' then c.toNat - 'a'.toNat + 10
  else c.toNat - 'A'.toNat + 10

/-- Modelled JS builtin decodeURIComponent, byte-wise: percent escapes must be
two hex digits; a malformed escape throws (URIError), embedded as `none`. -/
def percentDecodeChars : List Char → Option (List Char)
  | [] => some []
  | '%' :: a :: b :: rest =>
    if isHexDig a ∧ isHexDig b then
      (percentDecodeChars rest).map
        (fun t => Char.ofNat (16 * hexDigVal a + hexDigVal b) :: t)
    else none
  | '%' :: _ :: [] => none
  | '%' :: [] => none
  | c :: rest => (percentDecodeChars rest).map (fun t => c :: t)

/-- decodeURIComponent on a string (see `percentDecodeChars`). -/
def decodeURIComponent (s : String) : Option String :=
  (percentDecodeChars s.toList).map String.mk

/- ----------------------------------------------------------------
The fetch listener (interception point) and the routing of handleRequest.
---------------------------------------------------------------- -/

/-- The path test of the fetch listener: the six route path shapes it is
willing to answer (`relativePath` is the request path with the scope's path
portion sliced off). -/
def isApiRoute (relativePath : String) : Bool :=
  relativePath == "list.json" || relativePath == "upload" ||
  relativePath == "upload-url" || relativePath == "api" ||
  strStartsWith relativePath "delete/" || strStartsWith relativePath "get/"

/-- url.pathname.slice(scope.pathname.length), the fetch listener's
`relativePath`. -/
def relativePathOf (scope : Scope) (req : RequestInfo) : String :=
  jsSlice req.url.pathname scope.pathname.length

/-- The fetch listener's decision: event.respondWith is called exactly when
the request URL has the scope's origin, its pathname starts with the scope's
pathname, and the relative path is one of the six API route shapes.
Otherwise the listener returns without touching the event and the request
proceeds to the network. -/
def fetchListenerIntercepts (scope : Scope) (req : RequestInfo) : Bool :=
  req.url.origin == scope.origin &&
  strStartsWith req.url.pathname scope.pathname &&
  isApiRoute (relativePathOf scope req)

/-- Outcome of handleRequest's route selection. `jsThrow` is an exception
raised by the routing code itself, outside every handler's try/catch: it
escapes the async function as a rejected promise. -/
inductive RouteResult where
  | listImages : RouteResult
  | uploadImage : RouteResult
  | uploadFromUrl : RouteResult
  | deleteImage : String → RouteResult
  | serveImage : String → RouteResult
  | notFound : RouteResult
  | jsThrow : String → RouteResult
deriving DecidableEq

/-- The route-selection cascade of handleRequest, in source order. The
branch guarding the API-info response reads `method === 'GET' && path ===
'/api'` where `path` is an undefined identifier, so every GET request
reaching that line raises `ReferenceError: path is not defined`; the
API-info response below it is unreachable. A filename whose percent
decoding fails likewise raises (URIError) outside any try/catch. -/
def routeRequest (method : String) (relativePath : String) : RouteResult :=
  if method = "GET" ∧ relativePath = "list.json" then .listImages
  else if method = "POST" ∧ relativePath = "upload" then .uploadImage
  else if method = "POST" ∧ relativePath = "upload-url" then .uploadFromUrl
  else if method = "DELETE" ∧ strStartsWith relativePath "delete/" then
    match decodeURIComponent (jsSlice relativePath 7) with
    | some filename => .deleteImage filename
    | none => .jsThrow "URI malformed"
  else if method = "GET" ∧ strStartsWith relativePath "get/" then
    match decodeURIComponent (jsSlice relativePath 4) with
    | some filename => .serveImage filename
    | none => .jsThrow "URI malformed"
  else if method = "GET" then .jsThrow "path is not defined"
  else .notFound

/-- The spec's route table (§4.1): the (method, path) pairs that name a
defined operation — exact matches `list.json` (GET), `upload` (POST),
`upload-url` (POST), `api` (GET), and the two parameterized routes. Written
from the spec to state "matches none of the defined routes". -/
def matchesSomeRoute (method : String) (relativePath : String) : Prop :=
  (method = "GET" ∧ relativePath = "list.json") ∨
  (method = "POST" ∧ relativePath = "upload") ∨
  (method = "POST" ∧ relativePath = "upload-url") ∨
  (method = "GET" ∧ relativePath = "api") ∨
  (method = "DELETE" ∧ strStartsWith relativePath "delete/" = true) ∨
  (method = "GET" ∧ strStartsWith relativePath "get/" = true)

instance (method relativePath : String) :
    Decidable (matchesSomeRoute method relativePath) := by
  unfold matchesSomeRoute; infer_instance

/- ----------------------------------------------------------------
Handlers.
---------------------------------------------------------------- -/

/-- Headers of the JSON-emitting success branches. -/
def corsJsonHeaders : List (String × String) :=
  [("Content-Type", "application/json"), ("Access-Control-Allow-Origin", "*")]

/-- Headers of the JSON error branches. -/
def jsonHeaders : List (String × String) :=
  [("Content-Type", "application/json")]

/-- handleListImages: 200 with the JSON array of
`{filename, timestamp, size: img.size || 0, type: img.type || 'image/jpeg',
url: getApiBase() + '/get/' + img.filename}` descriptors (getApiBase() is
passed in as `apiBase`). The store read is modelled as always succeeding, so
the catch branch is not taken. -/
def handleListImages (apiBase : String) (db : List StoredItem) : Response :=
  let imageList := (getAllImages db).map (fun img => Json.obj
    [("filename", .str img.filename),
     ("timestamp", .num img.timestamp),
     ("size", .num img.size),
     ("type", .str (if img.type = "" then "image/jpeg" else img.type)),
     ("url", .str (apiBase ++ "/get/" ++ img.filename))])
  ⟨200, corsJsonHeaders, .json (.arr imageList)⟩

/-- The File entries of `formData.getAll('images')` (the `file instanceof
File` test of the upload loop). -/
def FormEntry.asFile : FormEntry → Option JsFile
  | .file f => some f
  | .other _ => none

/-- handleUploadImage: iterate over the File entries; for each, generate a
unique filename, store the file, then push a result object whose `url`
field evaluates the undefined identifier `API_BASE`. With no File entry the
loop body never runs and the handler returns 200
`{success:true, uploaded:[]}`; with at least one File entry, the first
iteration stores its file and then raises ReferenceError building the result
object, which the handler's catch converts into 500
`{success:false, error:'API_BASE is not defined'}` — the first store write
has already committed. -/
def handleUploadImage (entries : List FormEntry) (now : Nat) (random : String)
    (db : List StoredItem) : Response × List StoredItem :=
  match entries.filterMap FormEntry.asFile with
  | [] =>
    (⟨200, corsJsonHeaders,
      .json (.obj [("success", .bool true), ("uploaded", .arr [])])⟩, db)
  | f :: _ =>
    let filename := generateUniqueFilename now random f.name
    let db2 := storeImage db filename f.blob now
    (⟨500, jsonHeaders,
      .json (.obj [("success", .bool false),
                   ("error", .str "API_BASE is not defined")])⟩, db2)

/-- Result of the remote `fetch(url)` of handleUploadFromUrl. -/
structure FetchResult where
  ok : Bool
  status : Nat
  blob : Blob
deriving DecidableEq

/-- The JS `a || b` chain on an optional string: falsy means absent or empty. -/
def jsOrStr (a : Option String) (b : String) : String :=
  match a with
  | some s => if s = "" then b else s
  | none => b

/-- handleUploadFromUrl, after `request.json()` has produced the optional
`url` and `filename` fields. Missing or empty `url` → 400
`{success:false, error:'URL is required'}` with nothing written. Non-ok
remote fetch → the thrown `Failed to fetch: <status>` is caught → 500.
Otherwise the blob is stored under
`generateUniqueFilename(filename || extractFilenameFromUrl(url) ||
'image-<now>.jpg')`, and the success response's `url` field then evaluates
the undefined identifier `API_BASE`: the ReferenceError is caught and the
handler answers 500 `{success:false, error:'API_BASE is not defined'}`,
with the store write already committed. -/
def handleUploadFromUrl (url : Option String) (filename : Option String)
    (fetchResult : FetchResult) (now : Nat) (random : String)
    (db : List StoredItem) : Response × List StoredItem :=
  let isMissing : Bool := match url with
    | none => true
    | some u => u == ""
  if isMissing then
    (⟨400, jsonHeaders,
      .json (.obj [("success", .bool false),
                   ("error", .str "URL is required")])⟩, db)
  else
    let u := url.getD ""
    if !fetchResult.ok then
      (⟨500, jsonHeaders,
        .json (.obj [("success", .bool false),
                     ("error", .str ("Failed to fetch: " ++
                        toString fetchResult.status))])⟩, db)
    else
      let blob := fetchResult.blob
      let finalFilename := jsOrStr filename
        (jsOrStr (extractFilenameFromUrl u)
          ("image-" ++ toString now ++ ".jpg"))
      let uniqueFilename := generateUniqueFilename now random finalFilename
      let db2 := storeImage db uniqueFilename blob now
      (⟨500, jsonHeaders,
        .json (.obj [("success", .bool false),
                     ("error", .str "API_BASE is not defined")])⟩, db2)

/-- handleDeleteImage: delete the record and answer 200
`{success:true, message:'Image <filename> deleted'}` whether or not the
record existed (the store delete succeeds either way). -/
def handleDeleteImage (db : List StoredItem) (filename : String) :
    Response × List StoredItem :=
  (⟨200, corsJsonHeaders,
    .json (.obj [("success", .bool true),
                 ("message", .str ("Image " ++ filename ++ " deleted"))])⟩,
   deleteImage db filename)

/-- handleServeImage: look the record up; absent → 404 plain text
`Image not found`; present → 200 with the raw blob, Content-Type from
getContentType(filename), long-lived cache directive and permissive CORS. -/
def handleServeImage (db : List StoredItem) (filename : String) : Response :=
  match getImage db filename with
  | none => ⟨404, [], .text "Image not found"⟩
  | some imageData =>
    ⟨200,
     [("Content-Type", getContentType filename),
      ("Cache-Control", "public, max-age=31536000"),
      ("Access-Control-Allow-Origin", "*")],
     .blob imageData.blob⟩

/-- Everything request-specific a handler consumes besides method and path:
parsed bodies, the remote fetch outcome, the clock and randomness draws, and
the getApiBase() value. -/
structure RequestContext where
  now : Nat
  random : String
  apiBase : String
  formEntries : List FormEntry
  bodyUrl : Option String
  bodyFilename : Option String
  fetchResult : FetchResult

/-- handleRequest: route, then run the selected handler against the store.
`Except.error` is an exception escaping the async function uncaught — an
unhandled rejection delivered to event.respondWith. -/
def handleRequest (method : String) (relativePath : String)
    (ctx : RequestContext) (db : List StoredItem) :
    Except String (Response × List StoredItem) :=
  match routeRequest method relativePath with
  | .listImages => .ok (handleListImages ctx.apiBase db, db)
  | .uploadImage => .ok (handleUploadImage ctx.formEntries ctx.now ctx.random db)
  | .uploadFromUrl =>
    .ok (handleUploadFromUrl ctx.bodyUrl ctx.bodyFilename ctx.fetchResult
          ctx.now ctx.random db)
  | .deleteImage filename => .ok (handleDeleteImage db filename)
  | .serveImage filename => .ok (handleServeImage db filename, db)
  | .notFound => .ok (⟨404, [], .text "Not Found"⟩, db)
  | .jsThrow msg => .error msg

/- ----------------------------------------------------------------
Claim theorems.
---------------------------------------------------------------- -/

/-- C1: the claim says no error ever propagates as an unhandled fault past
the Dispatcher for an in-scope request. The code violates it: `GET
{scope}/api` is intercepted, and handleRequest's routing line `method ===
'GET' && path === '/api'` evaluates the undefined identifier `path`,
raising a ReferenceError outside every handler's try/catch; the async
function rejects and the fault reaches event.respondWith unconverted,
instead of the 500 JSON response the spec requires. -/
theorem get_api_route_throws_unhandled :
    fetchListenerIntercepts ⟨"https://example.com", "/gallery/"⟩
      ⟨"GET", ⟨"https://example.com", "/gallery/api"⟩⟩ = true ∧
    ∀ (ctx : RequestContext) (db : List StoredItem),
      handleRequest "GET" "api" ctx db = Except.error "path is not defined" :=
  ⟨by decide, fun _ _ => rfl⟩

/-- C2 counterexample: an in-scope request with an unknown path — origin
matches the scope, pathname extends the scope's pathname — is NOT
intercepted by the fetch listener (its path shape is none of the six the
listener answers), so it falls through to the real network instead of
producing the 404 the claim asserts. -/
theorem inScope_unknown_path_not_intercepted :
    strStartsWith "/gallery/foo" "/gallery/" = true ∧
    fetchListenerIntercepts ⟨"https://example.com", "/gallery/"⟩
      ⟨"GET", ⟨"https://example.com", "/gallery/foo"⟩⟩ = false := by
  decide

/-- C2 amended: for an in-scope request whose (method, path) matches none of
the defined routes, the behavior splits on the path shape: a path matching
none of the six route shapes is not intercepted at all (falls through to the
network), while a path of a route shape with the wrong method is intercepted
and, whenever the method is not GET, answered with 404 (a GET instead
reaches the undefined-`path` routing line). -/
theorem inScope_unmatched_route_behavior (scope : Scope) (req : RequestInfo)
    (hnm : ¬ matchesSomeRoute req.method (relativePathOf scope req)) :
    (isApiRoute (relativePathOf scope req) = false →
      fetchListenerIntercepts scope req = false) ∧
    (req.url.origin = scope.origin →
      strStartsWith req.url.pathname scope.pathname = true →
      isApiRoute (relativePathOf scope req) = true →
      fetchListenerIntercepts scope req = true ∧
      (req.method ≠ "GET" →
        routeRequest req.method (relativePathOf scope req) = .notFound)) := by
  constructor
  · intro h
    simp [fetchListenerIntercepts, h]
  · intro ho hs ha
    refine ⟨by simp [fetchListenerIntercepts, ho, hs, ha], ?_⟩
    intro hm
    rw [matchesSomeRoute] at hnm
    push_neg at hnm
    obtain ⟨h1, h2, h3, h4, h5, h6⟩ := hnm
    rw [routeRequest]
    rw [if_neg (by tauto), if_neg (by tauto), if_neg (by tauto),
        if_neg (by tauto), if_neg (by tauto), if_neg hm]

/-- C2 amended, witnessed at POST {scope}/list.json: in scope, route shape
known, method wrong, not GET — intercepted and answered 404. -/
theorem inScope_unmatched_route_behavior_witness :
    fetchListenerIntercepts ⟨"https://example.com", "/gallery/"⟩
      ⟨"POST", ⟨"https://example.com", "/gallery/list.json"⟩⟩ = true ∧
    routeRequest "POST" "list.json" = .notFound := by
  have h := inScope_unmatched_route_behavior ⟨"https://example.com", "/gallery/"⟩
      ⟨"POST", ⟨"https://example.com", "/gallery/list.json"⟩⟩ (by decide)
  obtain ⟨hi, hr⟩ := h.2 rfl (by decide) (by decide)
  exact ⟨hi, hr (by decide)⟩

set_option maxRecDepth 1000000 in
/-- C3: the claim's scenario — POST {scope}/upload-url for a 1024-byte
image/png fetched successfully — does NOT get the claimed 200
`{success:true, ...}`: the success response's `url` field evaluates the
undefined identifier `API_BASE`, and the resulting ReferenceError is caught
by the handler's catch, which answers 500
`{success:false, error:'API_BASE is not defined'}`. The store write has
already committed, so the claim's second half does hold: a subsequent GET
of the generated filename serves the same 1024 bytes as image/png. -/
theorem uploadFromUrl_api_base_reference_error :
    handleUploadFromUrl (some "https://example.com/a/b/cat.png") none
        ⟨true, 200, ⟨List.replicate 1024 0, "image/png"⟩⟩ 1700000000000 "abc123" [] =
      (⟨500, jsonHeaders,
        Body.json (.obj [("success", Json.bool false),
                         ("error", Json.str "API_BASE is not defined")])⟩,
       [⟨"1700000000000-abc123-cat.png", ⟨List.replicate 1024 0, "image/png"⟩,
         1700000000000, 1024, "image/png"⟩]) ∧
    handleServeImage
        [⟨"1700000000000-abc123-cat.png", ⟨List.replicate 1024 0, "image/png"⟩,
          1700000000000, 1024, "image/png"⟩] "1700000000000-abc123-cat.png" =
      ⟨200, [("Content-Type", "image/png"),
             ("Cache-Control", "public, max-age=31536000"),
             ("Access-Control-Allow-Origin", "*")],
       Body.blob ⟨List.replicate 1024 0, "image/png"⟩⟩ :=
  ⟨rfl, rfl⟩

/-- C4: Serve after Delete(f) answers 404 for every store and filename, and
Delete always answers 200 `{success:true, message:'Image <f> deleted'}` —
in particular for a filename never stored: absence is not an error. -/
theorem serve_after_delete_404_and_delete_idempotent
    (f : String) (db : List StoredItem) :
    (handleServeImage (handleDeleteImage db f).2 f).status = 404 ∧
    (handleDeleteImage db f).1.status = 200 ∧
    (handleDeleteImage db f).1.body =
      Body.json (.obj [("success", Json.bool true),
                       ("message", Json.str ("Image " ++ f ++ " deleted"))]) := by
  refine ⟨?_, rfl, rfl⟩
  have h : getImage (deleteImage db f) f = none := by
    rw [getImage, List.find?_eq_none]
    intro x hx
    have := List.of_mem_filter hx
    simp_all
  show (handleServeImage (deleteImage db f) f).status = 404
  rw [handleServeImage, h]

/-- C5: the claim (from the spec) requires that a name with no dot get no
trailing `.<ext>` segment at all. The code violates it: with `originalName
= "name"`, `split('.').pop()` returns the whole name and the replace leaves
it unchanged, so the generator produces the duplicated
`<ts>-<rand>-name.name`. -/
theorem generateUniqueFilename_no_dot_duplicates_name :
    generateUniqueFilename 1700000000000 "abc123" "name" =
      "1700000000000-abc123-name.name" :=
  rfl

/-- Unfolding of getContentType through the lower-cased extension. -/
theorem getContentType_eq (filename : String) :
    getContentType filename = (typesTable.lookup (lowerExt filename)).getD "image/jpeg" :=
  rfl

/-- C6: getContentType is a function of the lower-cased file extension
alone, maps each table extension to its MIME type, and answers image/jpeg
for every extension outside the table (unknown or missing). -/
theorem getContentType_ext_function_and_table :
    (∀ f g : String, lowerExt f = lowerExt g → getContentType f = getContentType g) ∧
    (∀ f, lowerExt f = "jpg" → getContentType f = "image/jpeg") ∧
    (∀ f, lowerExt f = "jpeg" → getContentType f = "image/jpeg") ∧
    (∀ f, lowerExt f = "png" → getContentType f = "image/png") ∧
    (∀ f, lowerExt f = "gif" → getContentType f = "image/gif") ∧
    (∀ f, lowerExt f = "webp" → getContentType f = "image/webp") ∧
    (∀ f, lowerExt f = "svg" → getContentType f = "image/svg+xml") ∧
    (∀ f, lowerExt f = "bmp" → getContentType f = "image/bmp") ∧
    (∀ f, lowerExt f = "avif" → getContentType f = "image/avif") ∧
    (∀ f, lowerExt f = "tiff" → getContentType f = "image/tiff") ∧
    (∀ f, lowerExt f ∉ typesTable.map Prod.fst → getContentType f = "image/jpeg") := by
  refine ⟨fun f g h => by rw [getContentType_eq, getContentType_eq, h],
    fun f h => by rw [getContentType_eq, h]; rfl,
    fun f h => by rw [getContentType_eq, h]; rfl,
    fun f h => by rw [getContentType_eq, h]; rfl,
    fun f h => by rw [getContentType_eq, h]; rfl,
    fun f h => by rw [getContentType_eq, h]; rfl,
    fun f h => by rw [getContentType_eq, h]; rfl,
    fun f h => by rw [getContentType_eq, h]; rfl,
    fun f h => by rw [getContentType_eq, h]; rfl,
    fun f h => by rw [getContentType_eq, h]; rfl,
    fun f h => ?_⟩
  rw [getContentType_eq]
  have : typesTable.lookup (lowerExt f) = none := by
    rw [List.lookup_eq_none_iff]
    intro p hp
    simp only [bne_iff_ne, ne_eq]
    intro hk
    exact h (hk ▸ List.mem_map_of_mem Prod.fst hp)
  rw [this]
  rfl

/-- C6 witnessed: a function of the extension (case-insensitively), a table
row, and the default for an unknown extension, at concrete filenames. -/
theorem getContentType_ext_function_and_table_witness :
    getContentType "photo.PNG" = getContentType "x.png" ∧
    getContentType "a.jpg" = "image/jpeg" ∧
    getContentType "a.xyz" = "image/jpeg" := by
  obtain ⟨hfun, hjpg, -, -, -, -, -, -, -, -, hdef⟩ := getContentType_ext_function_and_table
  exact ⟨hfun "photo.PNG" "x.png" (by decide), hjpg "a.jpg" (by decide),
    hdef "a.xyz" (by decide)⟩

/-- C7: a POST upload-url whose parsed body has no `url` field answers 400
with exactly `{success:false, error:'URL is required'}` — and the store
component of the result is the input store, untouched: no write occurs. -/
theorem uploadFromUrl_missing_url_400 (filename : Option String)
    (fetchResult : FetchResult) (now : Nat) (random : String)
    (db : List StoredItem) :
    handleUploadFromUrl none filename fetchResult now random db =
      (⟨400, jsonHeaders,
        Body.json (.obj [("success", Json.bool false),
                         ("error", Json.str "URL is required")])⟩, db) :=
  rfl

/-- C8: a request whose origin differs from the scope's origin, or whose
pathname does not start with the scope's pathname, is never intercepted: the
fetch listener does not call event.respondWith and the request proceeds to
the network untouched. -/
theorem out_of_scope_not_intercepted (scope : Scope) (req : RequestInfo)
    (h : req.url.origin ≠ scope.origin ∨
         strStartsWith req.url.pathname scope.pathname = false) :
    fetchListenerIntercepts scope req = false := by
  rw [fetchListenerIntercepts]
  rcases h with h | h
  · simp [h]
  · simp [h]

/-- C8 witnessed at a cross-origin request. -/
theorem out_of_scope_not_intercepted_witness :
    fetchListenerIntercepts ⟨"https://example.com", "/gallery/"⟩
      ⟨"GET", ⟨"https://other.example", "/gallery/list.json"⟩⟩ = false :=
  out_of_scope_not_intercepted _ _ (Or.inl (by decide))

/-- The C9 invariant: a record's denormalized size is its blob's byte
length and its type is the one derived from that blob at write time. -/
def itemConsistent (it : StoredItem) : Prop :=
  it.size = it.blob.size ∧
  it.type = (if it.blob.type = "" then "image/jpeg" else it.blob.type)

/-- storeImage writes only consistent records and leaves others intact. -/
theorem itemConsistent_storeImage {db : List StoredItem} {filename : String}
    {blob : Blob} {now : Nat} (h : ∀ it ∈ db, itemConsistent it) :
    ∀ it ∈ storeImage db filename blob now, itemConsistent it := by
  intro it hit
  rw [storeImage, putItem] at hit
  rcases List.mem_append.1 hit with hmem | hmem
  · exact h it (List.mem_of_mem_filter hmem)
  · rw [List.mem_singleton] at hmem
    subst hmem
    exact ⟨rfl, rfl⟩

/-- C9: every record in the store after a storeImage (the only write path,
used by Upload and UploadFromURL), a delete, an Upload handler run, or an
UploadFromURL handler run, is consistent — size equals the blob's byte
length and type is derived from the same blob; no operation touches size or
type apart from a full-record write. -/
theorem stored_items_size_type_consistent
    (db : List StoredItem) (filename : String) (blob : Blob) (now : Nat)
    (f : String) (entries : List FormEntry) (random : String)
    (url : Option String) (bodyFilename : Option String) (fr : FetchResult)
    (h : ∀ it ∈ db, itemConsistent it) :
    (∀ it ∈ storeImage db filename blob now, itemConsistent it) ∧
    (∀ it ∈ deleteImage db f, itemConsistent it) ∧
    (∀ it ∈ (handleUploadImage entries now random db).2, itemConsistent it) ∧
    (∀ it ∈ (handleUploadFromUrl url bodyFilename fr now random db).2,
      itemConsistent it) := by
  refine ⟨itemConsistent_storeImage h, ?_, ?_, ?_⟩
  · intro it hit
    rw [deleteImage] at hit
    exact h it (List.mem_of_mem_filter hit)
  · rw [handleUploadImage]
    split
    · exact h
    · exact itemConsistent_storeImage h
  · unfold handleUploadFromUrl
    dsimp only
    repeat' split
    all_goals first
      | exact h
      | exact itemConsistent_storeImage h

/-- C9 witnessed: the record written by a storeImage into an empty store. -/
theorem stored_items_size_type_consistent_witness :
    itemConsistent ⟨"a.png", ⟨[1, 2], "image/png"⟩, 7, 2, "image/png"⟩ := by
  have h := stored_items_size_type_consistent [] "a.png" ⟨[1, 2], "image/png"⟩ 7
    "f" [] "r" none none ⟨true, 200, ⟨[], ""⟩⟩
    (fun it hit => absurd hit (List.not_mem_nil it))
  exact h.1 _ (by decide)

/-- C10: a POST upload whose form data holds no File entry under `images`
answers 200 `{success:true, uploaded:[]}` and writes nothing: the store
component of the result is the input store. -/
theorem upload_no_files_success_empty (entries : List FormEntry) (now : Nat)
    (random : String) (db : List StoredItem)
    (h : entries.filterMap FormEntry.asFile = []) :
    handleUploadImage entries now random db =
      (⟨200, corsJsonHeaders,
        Body.json (.obj [("success", Json.bool true),
                         ("uploaded", Json.arr [])])⟩, db) := by
  rw [handleUploadImage, h]

/-- C10 witnessed: one non-File entry under `images`. -/
theorem upload_no_files_success_empty_witness :
    handleUploadImage [FormEntry.other "hello"] 7 "r" [] =
      (⟨200, corsJsonHeaders,
        Body.json (.obj [("success", Json.bool true),
                         ("uploaded", Json.arr [])])⟩, []) :=
  upload_no_files_success_empty [FormEntry.other "hello"] 7 "r" [] rfl
